import Mathlib

/-!
Shallow embedding of the channel matching and scoring engine of the
RWA-Platform repository (services/channel-service), together with the
attribution pipeline pieces the verified properties refer to.

Conventions of the embedding:
* Go float64 values are modelled as exact rationals.
* Redis / database effects are modelled by explicit parameters and by
  returning the written cache entries alongside the results.
* The generated UUIDs and the wall clock are passed in explicitly
  (a generator indexed by the candidate position, and an integer "now").
* Go sort.Slice sorts with the comparator MatchScore i greater than
  MatchScore j; its behaviour on ties is unspecified by the Go
  documentation.  The embedding realizes it with an insertion sort that
  is compatible with the comparator; all theorems proved below about the
  sorted output only use properties (sortedness, permutation, length)
  that hold for every admissible sort.Slice behaviour.
-/

/-- Trading fee block of a channel (fees.trading in the source model). -/
structure TradingFees where
  maker : ℚ
  taker : ℚ
  flat : ℚ
deriving DecidableEq

/-- Deposit fee block of a channel (fees.deposit in the source model). -/
structure DepositFees where
  crypto : ℚ
  fiat : ℚ
  wire : ℚ
deriving DecidableEq

/-- Withdrawal fee block of a channel (fees.withdrawal in the source model). -/
structure WithdrawalFees where
  crypto : ℚ
  fiat : ℚ
  wire : ℚ
deriving DecidableEq

/-- Fee schedule of a channel (ChannelFees in the source model). -/
structure ChannelFees where
  trading : TradingFees
  deposit : DepositFees
  withdrawal : WithdrawalFees
  management : ℚ
deriving DecidableEq

/-- Limits of a payment method (PaymentLimits in the source model). -/
structure PaymentLimits where
  min : ℚ
  max : ℚ
  daily : ℚ
  monthly : ℚ
deriving DecidableEq

/-- One payment method supported by a channel (PaymentMethod in the source model). -/
structure PaymentMethod where
  method : String
  currencies : List String
  processingTime : String
  limits : PaymentLimits
deriving DecidableEq

/-- Customer support descriptor of a channel (ChannelSupport in the source model). -/
structure ChannelSupport where
  email : String
  phone : String
  chat : Bool
  hours : String
  languages : List String
  responseTime : String
deriving DecidableEq

/-- API rate limit descriptor (RateLimits in the source model). -/
structure RateLimits where
  requests : ℤ
  period : String
deriving DecidableEq

/-- API descriptor of a channel (ChannelAPI in the source model). -/
structure ChannelAPI where
  hasReadOnlyAPI : Bool
  hasTradingAPI : Bool
  documentation : String
  rateLimits : RateLimits
deriving DecidableEq

/-- Insurance descriptor (Insurance in the source model). -/
structure Insurance where
  coverage : ℚ
  provider : String
deriving DecidableEq

/-- Custody descriptor (CustodyInfo in the source model). -/
structure CustodyInfo where
  type : String
  provider : String
  segregation : Bool
deriving DecidableEq

/-- One audit record (Audit in the source model; the report date is a unix time). -/
structure Audit where
  auditor : String
  reportDate : ℤ
  reportURL : String
  scope : String
deriving DecidableEq

/-- Security descriptor of a channel (ChannelSecurity in the source model). -/
structure ChannelSecurity where
  insurance : Option Insurance
  custody : CustodyInfo
  audits : List Audit
deriving DecidableEq

/-- Compliance block of a channel (ChannelCompliance in the source model). -/
structure ChannelCompliance where
  supportedRegions : List String
  restrictedRegions : List String
  kycRequired : Bool
  kycLevels : List String
  accreditedOnly : Bool
  minimumNetWorth : ℚ
deriving DecidableEq

/-- One supported asset of a channel (ChannelAsset in the source model). -/
structure ChannelAsset where
  assetID : String
  assetType : String
  tradingPairs : List String
  minimumOrder : ℚ
  maximumOrder : ℚ
  isActive : Bool
deriving DecidableEq

/-- A venue capable of fulfilling asset acquisition (Channel in the source model). -/
structure Channel where
  id : String
  name : String
  displayName : String
  description : String
  type : String
  status : String
  isActive : Bool
  website : String
  logo : String
  compliance : ChannelCompliance
  supportedAssets : List ChannelAsset
  fees : ChannelFees
  paymentMethods : List PaymentMethod
  support : ChannelSupport
  api : Option ChannelAPI
  security : ChannelSecurity
deriving DecidableEq

/-- Matching configuration (the relevant fields of Config in the source). -/
structure Config where
  matchingInterval : ℤ
  maxMatchingResults : ℕ
  minMatchingScore : ℚ
  redirectExpiration : ℤ
  attributionWindow : ℤ
deriving DecidableEq

/-- Default configuration values installed by setDefaults in cmd/main.go. -/
def defaultConfig : Config :=
  { matchingInterval := 30
    maxMatchingResults := 10
    minMatchingScore := 0.6
    redirectExpiration := 3600
    attributionWindow := 86400 }

/-- Ephemeral matching input (MatchingRequest in the source). -/
structure MatchingRequest where
  assetID : String
  amount : ℚ
  userRegion : String
  kycLevel : String
  paymentMethod : String
  userID : String
deriving DecidableEq

/-- Fee estimate attached to a matching result (FeeEstimate in the source). -/
structure FeeEstimate where
  tradingFee : ℚ
  withdrawalFee : ℚ
  totalFee : ℚ
  currency : String
deriving DecidableEq

/-- Availability verdict attached to a matching result (ChannelAvailability in the source). -/
structure ChannelAvailability where
  available : Bool
  reasons : List String
deriving DecidableEq

/-- Parameter map of a redirect descriptor (the keys written by generateRedirectInfo). -/
structure RedirectParameters where
  assetID : String
  amount : ℚ
  redirectID : String
  userID : String
  timestamp : ℤ
deriving DecidableEq

/-- Redirect descriptor attached to a matching result (RedirectInfo in the source). -/
structure RedirectInfo where
  url : String
  method : String
  parameters : RedirectParameters
  expiresAt : ℤ
deriving DecidableEq

/-- Processing time estimate (ProcessingTime in the source). -/
structure ProcessingTime where
  kyc : String
  deposit : String
  trade : String
  withdrawal : String
deriving DecidableEq

/-- One matching result (MatchingResult in the source). -/
structure MatchingResult where
  channelID : String
  channel : Channel
  matchScore : ℚ
  estimatedFees : FeeEstimate
  availability : ChannelAvailability
  redirectInfo : RedirectInfo
  processingTime : ProcessingTime
deriving DecidableEq

/-- One entry written to the redirect token store by cacheRedirectInfo. -/
structure RedirectCacheEntry where
  redirectID : String
  redirectInfo : RedirectInfo
  request : MatchingRequest
  createdAt : ℤ
deriving DecidableEq

/-- Total estimated fee of calculateFeeScore: amount times the taker rate
plus the flat crypto withdrawal fee. -/
def feeTotalFee (channel : Channel) (amount : ℚ) : ℚ :=
  amount * channel.fees.trading.taker + channel.fees.withdrawal.crypto

/-- Fee floor of calculateFeeScore (minFee in the source). -/
def feeMinFee (amount : ℚ) : ℚ :=
  amount * 0.0001

/-- Fee ceiling of calculateFeeScore (maxFee in the source). -/
def feeMaxFee (amount : ℚ) : ℚ :=
  amount * 0.01

/-- Fee sub-score (MatchingService.calculateFeeScore in the source). -/
def calculateFeeScore (channel : Channel) (amount : ℚ) : ℚ :=
  if feeTotalFee channel amount ≤ feeMinFee amount then 1.0
  else if feeMaxFee amount ≤ feeTotalFee channel amount then 0.0
  else 1.0 - (feeTotalFee channel amount - feeMinFee amount) / (feeMaxFee amount - feeMinFee amount)

/-- The loop in the source that checks whether the requested payment method
appears among the payment methods of the channel; the same loop occurs in
calculateAvailabilityScore and in checkChannelAvailability. -/
def paymentSupported (channel : Channel) (request : MatchingRequest) : Bool :=
  channel.paymentMethods.any (fun m => m.method == request.paymentMethod)

/-- Availability sub-score (MatchingService.calculateAvailabilityScore in the source). -/
def calculateAvailabilityScore (channel : Channel) (request : MatchingRequest) : ℚ :=
  let score0 : ℚ := 1.0
  let score1 := if channel.compliance.kycRequired && (request.kycLevel == "") then score0 - 0.3 else score0
  let score2 := if channel.compliance.minimumNetWorth > 0 then score1 - 0.1 else score1
  let score3 := if paymentSupported channel request then score2 else score2 - 0.4
  max 0 score3

/-- User experience sub-score (MatchingService.calculateUXScore in the source). -/
def calculateUXScore (channel : Channel) (request : MatchingRequest) : ℚ :=
  let score0 : ℚ := 0.0
  let score1 :=
    match channel.api with
    | some api => if api.hasTradingAPI then score0 + 0.3 else score0
    | none => score0
  let score2 := if channel.support.chat then score1 + 0.2 else score1
  let score3 := if channel.support.phone == "" then score2 else score2 + 0.2
  let score4 :=
    if channel.support.responseTime == "instant" then score3 + 0.3
    else if channel.support.responseTime == "1hour" then score3 + 0.2
    else score3 + 0.1
  score4

/-- Security sub-score (MatchingService.calculateSecurityScore in the source). -/
def calculateSecurityScore (channel : Channel) : ℚ :=
  let score0 : ℚ := 0.0
  let score1 :=
    match channel.security.insurance with
    | some ins => if ins.coverage > 0 then score0 + 0.4 else score0
    | none => score0
  let score2 := if channel.security.custody.segregation then score1 + 0.3 else score1
  let score3 := if channel.security.audits.length > 0 then score2 + 0.3 else score2
  score3

/-- Liquidity sub-score (MatchingService.calculateLiquidityScore in the source). -/
def calculateLiquidityScore (channel : Channel) (assetID : String) (amount : ℚ) : ℚ :=
  if channel.type == "exchange" then 0.9
  else if channel.type == "broker" then 0.7
  else if channel.type == "dex" then 0.6
  else 0.5

/-- Fee estimate (MatchingService.calculateFeeEstimate in the source). -/
def calculateFeeEstimate (channel : Channel) (amount : ℚ) : FeeEstimate :=
  let tradingFee := amount * channel.fees.trading.taker
  let withdrawalFee := channel.fees.withdrawal.crypto
  { tradingFee := tradingFee
    withdrawalFee := withdrawalFee
    totalFee := tradingFee + withdrawalFee
    currency := "USD" }

/-- Availability verdict (MatchingService.checkChannelAvailability in the source). -/
def checkChannelAvailability (channel : Channel) (request : MatchingRequest) : ChannelAvailability :=
  let availability0 : ChannelAvailability := { available := true, reasons := [] }
  let availability1 :=
    if channel.compliance.kycRequired && (request.kycLevel == "") then
      { available := false, reasons := availability0.reasons ++ ["KYC verification required"] }
    else availability0
  let availability2 :=
    if paymentSupported channel request then availability1
    else { available := false, reasons := availability1.reasons ++ ["Payment method not supported"] }
  availability2

/-- Redirect descriptor construction together with the token store write
performed by cacheRedirectInfo (MatchingService.generateRedirectInfo in the
source); the fresh UUID and the current time are explicit parameters. -/
def generateRedirectInfo (cfg : Config) (channel : Channel) (request : MatchingRequest)
    (redirectID : String) (now : ℤ) : RedirectInfo × RedirectCacheEntry :=
  let baseURL :=
    match channel.api with
    | some api => if api.hasTradingAPI then channel.website ++ "/api/redirect" else channel.website
    | none => channel.website
  let params : RedirectParameters :=
    { assetID := request.assetID
      amount := request.amount
      redirectID := redirectID
      userID := request.userID
      timestamp := now }
  let redirectInfo : RedirectInfo :=
    { url := baseURL ++ "?redirect_id=" ++ redirectID
      method := "GET"
      parameters := params
      expiresAt := now + cfg.redirectExpiration }
  (redirectInfo,
   { redirectID := redirectID
     redirectInfo := redirectInfo
     request := request
     createdAt := now })

/-- Processing time estimate (MatchingService.estimateProcessingTime in the source). -/
def estimateProcessingTime (channel : Channel) (request : MatchingRequest) : ProcessingTime :=
  if channel.compliance.kycRequired then
    { kyc := "1-3 days", deposit := "1-2 hours", trade := "instant", withdrawal := "1-24 hours" }
  else
    { kyc := "not required", deposit := "instant", trade := "instant", withdrawal := "1-24 hours" }

/-- Sum of the five scoring weights, accumulated in maxScore by
calculateChannelMatch in the source. -/
def matchMaxScore : ℚ :=
  0.3 + 0.25 + 0.2 + 0.15 + 0.1

/-- Score one candidate channel (MatchingService.calculateChannelMatch in the
source), returning the populated result together with the redirect cache
entry written as a side effect of generateRedirectInfo. -/
def calculateChannelMatch (cfg : Config) (channel : Channel) (request : MatchingRequest)
    (redirectID : String) (now : ℤ) : MatchingResult × RedirectCacheEntry :=
  let feeScore := calculateFeeScore channel request.amount
  let availabilityScore := calculateAvailabilityScore channel request
  let uxScore := calculateUXScore channel request
  let securityScore := calculateSecurityScore channel
  let liquidityScore := calculateLiquidityScore channel request.assetID request.amount
  let score := feeScore * 0.3 + availabilityScore * 0.25 + uxScore * 0.2
    + securityScore * 0.15 + liquidityScore * 0.1
  let redirect := generateRedirectInfo cfg channel request redirectID now
  ({ channelID := channel.id
     channel := channel
     matchScore := score / matchMaxScore
     estimatedFees := calculateFeeEstimate channel request.amount
     availability := checkChannelAvailability channel request
     redirectInfo := redirect.1
     processingTime := estimateProcessingTime channel request },
   redirect.2)

/-- Descending comparator used by the sort in MatchChannels: a result comes
no later than another when its match score is at least as large. -/
def matchGe (a b : MatchingResult) : Prop :=
  b.matchScore ≤ a.matchScore

instance : DecidableRel matchGe :=
  fun a b => inferInstanceAs (Decidable (b.matchScore ≤ a.matchScore))

instance : IsTotal MatchingResult matchGe :=
  ⟨fun a b => le_total b.matchScore a.matchScore⟩

instance : IsTrans MatchingResult matchGe :=
  ⟨fun _ _ _ hab hbc => le_trans hbc hab⟩

/-- All scored candidates of one MatchChannels call, in fetch order, each
paired with its redirect cache write; candidate number i receives the
redirect identifier gen i. -/
def scoredCandidates (cfg : Config) (channels : List Channel) (request : MatchingRequest)
    (gen : ℕ → String) (now : ℤ) : List (MatchingResult × RedirectCacheEntry) :=
  channels.enum.map (fun p => calculateChannelMatch cfg p.2 request (gen p.1) now)

/-- The scored candidates that pass the minimum score filter of MatchChannels. -/
def passingResults (cfg : Config) (channels : List Channel) (request : MatchingRequest)
    (gen : ℕ → String) (now : ℤ) : List MatchingResult :=
  ((scoredCandidates cfg channels request gen now).map Prod.fst).filter
    (fun r => cfg.minMatchingScore ≤ r.matchScore)

/-- The final list returned by MatchChannels: filter by minimum score, sort
descending by match score, truncate to the configured maximum. -/
def matchResults (cfg : Config) (channels : List Channel) (request : MatchingRequest)
    (gen : ℕ → String) (now : ℤ) : List MatchingResult :=
  (List.insertionSort matchGe (passingResults cfg channels request gen now)).take
    cfg.maxMatchingResults

/-- The redirect token store writes performed during one MatchChannels call:
one cache entry per scored candidate, written inside calculateChannelMatch. -/
def matchWrites (cfg : Config) (channels : List Channel) (request : MatchingRequest)
    (gen : ℕ → String) (now : ℤ) : List RedirectCacheEntry :=
  (scoredCandidates cfg channels request gen now).map Prod.snd

/-- The full MatchChannels entry point (MatchingService.MatchChannels in the
source), with the eligible channel list passed in for getEligibleChannels:
fails on an empty eligible set, otherwise returns the ranked truncated
results together with the token store writes that occurred. -/
def matchChannels (cfg : Config) (channels : List Channel) (request : MatchingRequest)
    (gen : ℕ → String) (now : ℤ) :
    Except String (List MatchingResult × List RedirectCacheEntry) :=
  if channels.isEmpty then
    Except.error ("no eligible channels found for asset " ++ request.assetID
      ++ " in region " ++ request.userRegion)
  else
    Except.ok (matchResults cfg channels request gen now,
      matchWrites cfg channels request gen now)

/-- Reference definition of the fee sub-score, written from the
specification text: the total fee is mapped to the unit interval linearly
between the floor and the ceiling, 1.0 at or below the floor, 0.0 at or
above the ceiling. -/
def feeScoreSpecRef (totalFee floor ceiling : ℚ) : ℚ :=
  if totalFee ≤ floor then 1.0
  else if ceiling ≤ totalFee then 0.0
  else 1.0 - (totalFee - floor) / (ceiling - floor)

/-- One touchpoint event of the attribution pipeline (AttributionEvent in
the source; the timestamp is a unix time). -/
structure AttributionEvent where
  id : String
  userID : String
  sessionID : String
  eventType : String
  channelID : String
  assetID : String
  amount : ℚ
  redirectID : String
  ipAddress : String
  userAgent : String
  referrer : String
  utmSource : String
  utmMedium : String
  utmCampaign : String
  timestamp : ℤ
deriving DecidableEq

/-- The touchpoint summary string written into the attribution path by
updateUserAttributionPath: channel, event type and unix timestamp. -/
def touchpoint (event : AttributionEvent) : String :=
  event.channelID ++ ":" ++ event.eventType ++ ":" ++ toString event.timestamp

/-- One update of the per-user attribution path
(AttributionService.updateUserAttributionPath in the source): the redis
LPush prepends the new touchpoint and the LTrim 0 9 keeps the first ten
entries of the list. -/
def updateUserAttributionPath (path : List String) (event : AttributionEvent) : List String :=
  (touchpoint event :: path).take 10

/-- Derived per-channel statistics record (AttributionStats in the source). -/
structure AttributionStats where
  channelID : String
  totalClicks : ℤ
  totalConversions : ℤ
  conversionRate : ℚ
  totalRevenue : ℚ
  averageOrderValue : ℚ
  period : String
deriving DecidableEq

/-- Derived statistics computation
(AttributionService.calculateChannelStats in the source), with the daily
counters read from redis passed in explicitly. -/
def calculateChannelStats (channelID : String) (clicks conversions : ℤ) (revenue : ℚ)
    (today : String) : AttributionStats :=
  let conversionRate : ℚ := if clicks > 0 then ((conversions : ℚ) / (clicks : ℚ)) * 100 else 0
  let averageOrderValue : ℚ := if conversions > 0 then revenue / (conversions : ℚ) else 0
  { channelID := channelID
    totalClicks := clicks
    totalConversions := conversions
    conversionRate := conversionRate
    totalRevenue := revenue
    averageOrderValue := averageOrderValue
    period := today }

/-- Deterministic redirect identifier generator used in the concrete
instances below, standing in for uuid.New. -/
def uuidDemo : ℕ → String := fun n => "uuid-" ++ toString n

/-- A baseline concrete channel used to build the concrete instances:
active exchange, zero fees, card payments, minimal support, no API, no
security features, no KYC requirement. -/
def baseChannel : Channel :=
  { id := "base"
    name := "Base"
    displayName := "Base"
    description := ""
    type := "exchange"
    status := "active"
    isActive := true
    website := "https://base.example"
    logo := ""
    compliance :=
      { supportedRegions := ["US"]
        restrictedRegions := []
        kycRequired := false
        kycLevels := []
        accreditedOnly := false
        minimumNetWorth := 0 }
    supportedAssets := []
    fees :=
      { trading := { maker := 0, taker := 0, flat := 0 }
        deposit := { crypto := 0, fiat := 0, wire := 0 }
        withdrawal := { crypto := 0, fiat := 0, wire := 0 }
        management := 0 }
    paymentMethods :=
      [{ method := "card", currencies := ["USD"], processingTime := "instant"
         limits := { min := 0, max := 0, daily := 0, monthly := 0 } }]
    support :=
      { email := "", phone := "", chat := false, hours := "", languages := []
        responseTime := "email" }
    api := none
    security :=
      { insurance := none
        custody := { type := "third_party", provider := "", segregation := false }
        audits := [] } }

/-- Scenario channel A: sub-scores fee 29/60, availability 1, user
experience 0.8, security 0.7, liquidity 0.9, hence match score 0.75. -/
def chScenA : Channel :=
  { baseChannel with
    id := "A"
    fees := { baseChannel.fees with trading := { maker := 0, taker := 1043/200000, flat := 0 } }
    api := some { hasReadOnlyAPI := true, hasTradingAPI := true, documentation := ""
                  rateLimits := { requests := 0, period := "" } }
    support := { baseChannel.support with chat := true, responseTime := "instant" }
    security := { baseChannel.security with
                  insurance := some { coverage := 1000000, provider := "P" }
                  custody := { type := "self", provider := "", segregation := true } } }

/-- Scenario channel B: sub-scores fee 11/15, availability 1, user
experience 0.1, security 0, liquidity 0.6, hence match score 0.55. -/
def chScenB : Channel :=
  { baseChannel with
    id := "B"
    type := "dex"
    fees := { baseChannel.fees with trading := { maker := 0, taker := 137/50000, flat := 0 } } }

/-- Scenario channel C: like channel A but with fee sub-score 59/60, hence
match score 0.90. -/
def chScenC : Channel :=
  { chScenA with
    id := "C"
    fees := { baseChannel.fees with trading := { maker := 0, taker := 53/200000, flat := 0 } } }

/-- Scenario request: amount 10000, card payment, no KYC level. -/
def reqScen : MatchingRequest :=
  { assetID := "asset-1", amount := 10000, userRegion := "US", kycLevel := ""
    paymentMethod := "card", userID := "user-1" }

/-- Concrete channel that requires KYC but is otherwise excellent: fee
sub-score 1, user experience 1, security 1, liquidity 0.9, availability
sub-score 0.7 after the KYC penalty, hence match score 0.915. -/
def chKycOnly : Channel :=
  { baseChannel with
    id := "K"
    api := some { hasReadOnlyAPI := true, hasTradingAPI := true, documentation := ""
                  rateLimits := { requests := 0, period := "" } }
    compliance := { baseChannel.compliance with kycRequired := true, kycLevels := ["basic"] }
    support := { baseChannel.support with
                 chat := true
                 phone := "+1-555-0100"
                 responseTime := "instant" }
    security := { insurance := some { coverage := 1000000, provider := "P" }
                  custody := { type := "self", provider := "", segregation := true }
                  audits := [{ auditor := "AuditCo", reportDate := 0, reportURL := "", scope := "full" }] } }

/-- Request carrying no KYC level, card payment, amount 10000. -/
def reqNoKyc : MatchingRequest :=
  { assetID := "asset-1", amount := 10000, userRegion := "US", kycLevel := ""
    paymentMethod := "card", userID := "user-2" }

/-- Concrete channel that scores far below the default minimum score: fee
sub-score 0, availability 0.6 (payment method unsupported), user
experience 0.1, security 0, liquidity 0.5, hence match score 0.22. -/
def chLowScore : Channel :=
  { baseChannel with
    id := "L"
    type := "platform"
    paymentMethods := []
    fees := { baseChannel.fees with trading := { maker := 0, taker := 0.01, flat := 0 } } }

/-- Request used with the low-scoring channel: wire payment, amount 10000. -/
def reqLow : MatchingRequest :=
  { assetID := "asset-1", amount := 10000, userRegion := "US", kycLevel := "basic"
    paymentMethod := "wire", userID := "user-3" }

/-- Concrete channel of the fee scenario: taker rate 0.005 and flat crypto
withdrawal fee 5. -/
def chFee : Channel :=
  { baseChannel with
    id := "F"
    fees := { baseChannel.fees with
              trading := { maker := 0, taker := 0.005, flat := 0 }
              withdrawal := { crypto := 5, fiat := 0, wire := 0 } } }

/-- The i-th concrete attribution touchpoint event used in the path cap
witness: a click on channel number i at unix time i. -/
def demoEvent (i : ℕ) : AttributionEvent :=
  { id := "evt-" ++ toString i
    userID := "user-7"
    sessionID := "sess-7"
    eventType := "click"
    channelID := "ch" ++ toString i
    assetID := "asset-1"
    amount := 0
    redirectID := ""
    ipAddress := ""
    userAgent := ""
    referrer := ""
    utmSource := ""
    utmMedium := ""
    utmCampaign := ""
    timestamp := i }

/-- Fifteen concrete touchpoint events, oldest first. -/
def demoEvents : List AttributionEvent :=
  (List.range 15).map demoEvent

theorem feeScore_nonneg (channel : Channel) (amount : ℚ) :
    0 ≤ calculateFeeScore channel amount := by
  unfold calculateFeeScore
  split_ifs with h1 h2
  · norm_num
  · norm_num
  · push_neg at h1 h2
    have hpos : 0 < feeMaxFee amount - feeMinFee amount := by linarith
    have hle : (feeTotalFee channel amount - feeMinFee amount) / (feeMaxFee amount - feeMinFee amount) ≤ 1 := by
      rw [div_le_one hpos]; linarith
    linarith

theorem feeScore_le_one (channel : Channel) (amount : ℚ) :
    calculateFeeScore channel amount ≤ 1 := by
  unfold calculateFeeScore
  split_ifs with h1 h2
  · norm_num
  · norm_num
  · push_neg at h1 h2
    have hpos : 0 < feeMaxFee amount - feeMinFee amount := by linarith
    have hge : 0 ≤ (feeTotalFee channel amount - feeMinFee amount) / (feeMaxFee amount - feeMinFee amount) :=
      div_nonneg (by linarith) (by linarith)
    linarith

theorem availabilityScore_nonneg (channel : Channel) (request : MatchingRequest) :
    0 ≤ calculateAvailabilityScore channel request :=
  le_max_left 0 _

theorem availabilityScore_le_one (channel : Channel) (request : MatchingRequest) :
    calculateAvailabilityScore channel request ≤ 1 := by
  unfold calculateAvailabilityScore
  split_ifs <;> simp [max_le_iff] <;> norm_num

theorem uxScore_nonneg (channel : Channel) (request : MatchingRequest) :
    0 ≤ calculateUXScore channel request := by
  unfold calculateUXScore
  cases channel.api <;> dsimp only <;> split_ifs <;> norm_num

theorem uxScore_le_one (channel : Channel) (request : MatchingRequest) :
    calculateUXScore channel request ≤ 1 := by
  unfold calculateUXScore
  cases channel.api <;> dsimp only <;> split_ifs <;> norm_num

theorem securityScore_nonneg (channel : Channel) :
    0 ≤ calculateSecurityScore channel := by
  unfold calculateSecurityScore
  cases channel.security.insurance <;> dsimp only <;> split_ifs <;> norm_num

theorem securityScore_le_one (channel : Channel) :
    calculateSecurityScore channel ≤ 1 := by
  unfold calculateSecurityScore
  cases channel.security.insurance <;> dsimp only <;> split_ifs <;> norm_num

theorem liquidityScore_nonneg (channel : Channel) (assetID : String) (amount : ℚ) :
    0 ≤ calculateLiquidityScore channel assetID amount := by
  unfold calculateLiquidityScore
  split_ifs <;> norm_num

theorem liquidityScore_le_one (channel : Channel) (assetID : String) (amount : ℚ) :
    calculateLiquidityScore channel assetID amount ≤ 1 := by
  unfold calculateLiquidityScore
  split_ifs <;> norm_num

theorem matchScore_nonneg (cfg : Config) (channel : Channel) (request : MatchingRequest)
    (rid : String) (now : ℤ) :
    0 ≤ (calculateChannelMatch cfg channel request rid now).1.matchScore := by
  have h1 := feeScore_nonneg channel request.amount
  have h2 := availabilityScore_nonneg channel request
  have h3 := uxScore_nonneg channel request
  have h4 := securityScore_nonneg channel
  have h5 := liquidityScore_nonneg channel request.assetID request.amount
  simp only [calculateChannelMatch]
  rw [show matchMaxScore = 1 by norm_num [matchMaxScore], div_one]
  linarith

theorem matchScore_le_one (cfg : Config) (channel : Channel) (request : MatchingRequest)
    (rid : String) (now : ℤ) :
    (calculateChannelMatch cfg channel request rid now).1.matchScore ≤ 1 := by
  have h1 := feeScore_le_one channel request.amount
  have h2 := availabilityScore_le_one channel request
  have h3 := uxScore_le_one channel request
  have h4 := securityScore_le_one channel
  have h5 := liquidityScore_le_one channel request.assetID request.amount
  simp only [calculateChannelMatch]
  rw [show matchMaxScore = 1 by norm_num [matchMaxScore], div_one]
  linarith

theorem feeScoreScenA : calculateFeeScore chScenA 10000 = 29/60 := by
  norm_num [calculateFeeScore, feeTotalFee, feeMinFee, feeMaxFee, chScenA, baseChannel]

theorem feeScoreScenB : calculateFeeScore chScenB 10000 = 11/15 := by
  norm_num [calculateFeeScore, feeTotalFee, feeMinFee, feeMaxFee, chScenB, baseChannel]

theorem feeScoreScenC : calculateFeeScore chScenC 10000 = 59/60 := by
  norm_num [calculateFeeScore, feeTotalFee, feeMinFee, feeMaxFee, chScenC, chScenA, baseChannel]

theorem feeScoreKyc : calculateFeeScore chKycOnly 10000 = 1 := by
  norm_num [calculateFeeScore, feeTotalFee, feeMinFee, feeMaxFee, chKycOnly, baseChannel]

theorem feeScoreLow : calculateFeeScore chLowScore 10000 = 0 := by
  norm_num [calculateFeeScore, feeTotalFee, feeMinFee, feeMaxFee, chLowScore, baseChannel]

theorem availScenA : calculateAvailabilityScore chScenA reqScen = 1 := by
  simp [calculateAvailabilityScore, paymentSupported, chScenA, baseChannel, reqScen]
  norm_num [max_def]

theorem availScenB : calculateAvailabilityScore chScenB reqScen = 1 := by
  simp [calculateAvailabilityScore, paymentSupported, chScenB, baseChannel, reqScen]
  norm_num [max_def]

theorem availScenC : calculateAvailabilityScore chScenC reqScen = 1 := by
  simp [calculateAvailabilityScore, paymentSupported, chScenC, chScenA, baseChannel, reqScen]
  norm_num [max_def]

theorem availKyc : calculateAvailabilityScore chKycOnly reqNoKyc = 7/10 := by
  simp [calculateAvailabilityScore, paymentSupported, chKycOnly, baseChannel, reqNoKyc]
  norm_num

theorem availLow : calculateAvailabilityScore chLowScore reqLow = 3/5 := by
  simp [calculateAvailabilityScore, paymentSupported, chLowScore, baseChannel, reqLow]
  norm_num

theorem uxScenA : calculateUXScore chScenA reqScen = 4/5 := by
  simp [calculateUXScore, chScenA, baseChannel, reqScen]
  norm_num

theorem uxScenB : calculateUXScore chScenB reqScen = 1/10 := by
  simp [calculateUXScore, chScenB, baseChannel, reqScen]
  norm_num

theorem uxScenC : calculateUXScore chScenC reqScen = 4/5 := by
  simp [calculateUXScore, chScenC, chScenA, baseChannel, reqScen]
  norm_num

theorem uxKyc : calculateUXScore chKycOnly reqNoKyc = 1 := by
  simp [calculateUXScore, chKycOnly, baseChannel, reqNoKyc]
  norm_num

theorem uxLow : calculateUXScore chLowScore reqLow = 1/10 := by
  simp [calculateUXScore, chLowScore, baseChannel, reqLow]
  norm_num

theorem secScenA : calculateSecurityScore chScenA = 7/10 := by
  simp [calculateSecurityScore, chScenA, baseChannel]
  norm_num

theorem secScenB : calculateSecurityScore chScenB = 0 := by
  simp [calculateSecurityScore, chScenB, baseChannel]
  norm_num

theorem secScenC : calculateSecurityScore chScenC = 7/10 := by
  simp [calculateSecurityScore, chScenC, chScenA, baseChannel]
  norm_num

theorem secKyc : calculateSecurityScore chKycOnly = 1 := by
  simp [calculateSecurityScore, chKycOnly, baseChannel]
  norm_num

theorem secLow : calculateSecurityScore chLowScore = 0 := by
  simp [calculateSecurityScore, chLowScore, baseChannel]
  norm_num

theorem liqScenA : calculateLiquidityScore chScenA "asset-1" 10000 = 9/10 := by
  simp [calculateLiquidityScore, chScenA, baseChannel]
  norm_num

theorem liqScenB : calculateLiquidityScore chScenB "asset-1" 10000 = 3/5 := by
  simp [calculateLiquidityScore, chScenB, baseChannel]
  norm_num

theorem liqScenC : calculateLiquidityScore chScenC "asset-1" 10000 = 9/10 := by
  simp [calculateLiquidityScore, chScenC, chScenA, baseChannel]
  norm_num

theorem liqKyc : calculateLiquidityScore chKycOnly "asset-1" 10000 = 9/10 := by
  simp [calculateLiquidityScore, chKycOnly, baseChannel]
  norm_num

theorem liqLow : calculateLiquidityScore chLowScore "asset-1" 10000 = 1/2 := by
  simp [calculateLiquidityScore, chLowScore, baseChannel]
  norm_num

theorem scoreScenA (rid : String) (now : ℤ) :
    (calculateChannelMatch defaultConfig chScenA reqScen rid now).1.matchScore = 3/4 := by
  simp only [calculateChannelMatch]
  rw [show reqScen.amount = 10000 from rfl, show reqScen.assetID = "asset-1" from rfl,
    feeScoreScenA, availScenA, uxScenA, secScenA, liqScenA]
  norm_num [matchMaxScore]

theorem scoreScenB (rid : String) (now : ℤ) :
    (calculateChannelMatch defaultConfig chScenB reqScen rid now).1.matchScore = 11/20 := by
  simp only [calculateChannelMatch]
  rw [show reqScen.amount = 10000 from rfl, show reqScen.assetID = "asset-1" from rfl,
    feeScoreScenB, availScenB, uxScenB, secScenB, liqScenB]
  norm_num [matchMaxScore]

theorem scoreScenC (rid : String) (now : ℤ) :
    (calculateChannelMatch defaultConfig chScenC reqScen rid now).1.matchScore = 9/10 := by
  simp only [calculateChannelMatch]
  rw [show reqScen.amount = 10000 from rfl, show reqScen.assetID = "asset-1" from rfl,
    feeScoreScenC, availScenC, uxScenC, secScenC, liqScenC]
  norm_num [matchMaxScore]

theorem scoreKyc (rid : String) (now : ℤ) :
    (calculateChannelMatch defaultConfig chKycOnly reqNoKyc rid now).1.matchScore = 183/200 := by
  simp only [calculateChannelMatch]
  rw [show reqNoKyc.amount = 10000 from rfl, show reqNoKyc.assetID = "asset-1" from rfl,
    feeScoreKyc, availKyc, uxKyc, secKyc, liqKyc]
  norm_num [matchMaxScore]

theorem scoreLow (rid : String) (now : ℤ) :
    (calculateChannelMatch defaultConfig chLowScore reqLow rid now).1.matchScore = 11/50 := by
  simp only [calculateChannelMatch]
  rw [show reqLow.amount = 10000 from rfl, show reqLow.assetID = "asset-1" from rfl,
    feeScoreLow, availLow, uxLow, secLow, liqLow]
  norm_num [matchMaxScore]

theorem defaultMinScore : defaultConfig.minMatchingScore = 3/5 := by
  norm_num [defaultConfig]

theorem defaultMaxResults : defaultConfig.maxMatchingResults = 10 := rfl

theorem passingScen :
    passingResults defaultConfig [chScenA, chScenB, chScenC] reqScen uuidDemo 0
      = [(calculateChannelMatch defaultConfig chScenA reqScen (uuidDemo 0) 0).1,
         (calculateChannelMatch defaultConfig chScenC reqScen (uuidDemo 2) 0).1] := by
  norm_num [passingResults, scoredCandidates, List.enum, List.enumFrom, List.filter_cons,
    scoreScenA, scoreScenB, scoreScenC, defaultMinScore, defaultMaxResults]

theorem matchResultsScen :
    matchResults defaultConfig [chScenA, chScenB, chScenC] reqScen uuidDemo 0
      = [(calculateChannelMatch defaultConfig chScenC reqScen (uuidDemo 2) 0).1,
         (calculateChannelMatch defaultConfig chScenA reqScen (uuidDemo 0) 0).1] := by
  rw [matchResults, passingScen]
  norm_num [List.insertionSort, List.orderedInsert, matchGe, scoreScenA, scoreScenC,
    defaultMinScore, defaultMaxResults]

theorem matchResultsKyc :
    matchResults defaultConfig [chKycOnly] reqNoKyc uuidDemo 0
      = [(calculateChannelMatch defaultConfig chKycOnly reqNoKyc (uuidDemo 0) 0).1] := by
  norm_num [matchResults, passingResults, scoredCandidates, List.enum, List.enumFrom,
    List.filter_cons, List.insertionSort, List.orderedInsert, scoreKyc, defaultMinScore, defaultMaxResults]

theorem matchResultsLow :
    matchResults defaultConfig [chLowScore] reqLow uuidDemo 0 = [] := by
  norm_num [matchResults, passingResults, scoredCandidates, List.enum, List.enumFrom,
    List.filter_cons, List.insertionSort, scoreLow, defaultMinScore, defaultMaxResults]

theorem matchResultsScenSingleA :
    matchResults defaultConfig [chScenA] reqScen uuidDemo 0
      = [(calculateChannelMatch defaultConfig chScenA reqScen (uuidDemo 0) 0).1] := by
  norm_num [matchResults, passingResults, scoredCandidates, List.enum, List.enumFrom,
    List.filter_cons, List.insertionSort, List.orderedInsert, scoreScenA, defaultMinScore, defaultMaxResults]

theorem kycResultUnavailable (rid : String) (now : ℤ) :
    (calculateChannelMatch defaultConfig chKycOnly reqNoKyc rid now).1.availability.available
      = false := by
  rfl

theorem writesLow :
    (matchWrites defaultConfig [chLowScore] reqLow uuidDemo 0).map (fun w => w.redirectID)
      = ["uuid-0"] := by
  rfl

theorem mapChannelIDScen :
    (matchResults defaultConfig [chScenA, chScenB, chScenC] reqScen uuidDemo 0).map
      (fun r => r.channelID) = ["C", "A"] := by
  rw [matchResultsScen]
  rfl

theorem mapScoreScen :
    (matchResults defaultConfig [chScenA, chScenB, chScenC] reqScen uuidDemo 0).map
      (fun r => r.matchScore) = [0.9, 0.75] := by
  rw [matchResultsScen]
  rw [List.map_cons, List.map_cons, List.map_nil, scoreScenC, scoreScenA]
  norm_num

theorem mapScoredScen :
    (scoredCandidates defaultConfig [chScenA, chScenB, chScenC] reqScen uuidDemo 0).map
      (fun p => p.1.matchScore) = [0.75, 0.55, 0.9] := by
  simp only [scoredCandidates, List.enum, List.enumFrom, List.map_cons, List.map_nil]
  rw [scoreScenA, scoreScenB, scoreScenC]
  norm_num

theorem mem_matchResults_elim {cfg : Config} {channels : List Channel}
    {request : MatchingRequest} {gen : ℕ → String} {now : ℤ} {r : MatchingResult}
    (h : r ∈ matchResults cfg channels request gen now) :
    cfg.minMatchingScore ≤ r.matchScore
    ∧ ∃ p ∈ scoredCandidates cfg channels request gen now, p.1 = r := by
  have h1 : r ∈ List.insertionSort matchGe (passingResults cfg channels request gen now) :=
    List.take_subset _ _ h
  have h2 : r ∈ passingResults cfg channels request gen now :=
    (List.mem_insertionSort matchGe).mp h1
  have h3 := List.mem_filter.mp h2
  exact ⟨of_decide_eq_true h3.2, List.mem_map.mp h3.1⟩

/-- C1 counterexample: with the default configuration, a single eligible
channel that requires KYC while the request carries no KYC level is
returned by MatchChannels (its match score 0.915 passes the 0.6 filter),
and the returned result has availability.available equal to false: the
final list is not filtered on availability. -/
theorem c1_unavailable_in_final_list_counterexample :
    matchChannels defaultConfig [chKycOnly] reqNoKyc uuidDemo 0
      = Except.ok (matchResults defaultConfig [chKycOnly] reqNoKyc uuidDemo 0,
          matchWrites defaultConfig [chKycOnly] reqNoKyc uuidDemo 0)
    ∧ (matchResults defaultConfig [chKycOnly] reqNoKyc uuidDemo 0).map
        (fun r => r.availability.available) = [false]
    ∧ (matchResults defaultConfig [chKycOnly] reqNoKyc uuidDemo 0).length = 1 := by
  refine ⟨rfl, ?_, ?_⟩
  · rw [matchResultsKyc, List.map_cons, List.map_nil, kycResultUnavailable]
  · rw [matchResultsKyc]; rfl

/-- C1 amended: every element of the list returned by MatchChannels passes
the minimum-score filter and carries the availability object computed by
checkChannelAvailability for its channel; membership in the list is decided
by the match score alone, so results with availability.available false can
appear. -/
theorem c1_final_list_filters_only_on_score :
    ∀ (cfg : Config) (channels : List Channel) (request : MatchingRequest)
      (gen : ℕ → String) (now : ℤ) (r : MatchingResult),
      r ∈ matchResults cfg channels request gen now →
        cfg.minMatchingScore ≤ r.matchScore
        ∧ r.availability = checkChannelAvailability r.channel request := by
  intro cfg channels request gen now r hr
  obtain ⟨hmin, p, hp, hpr⟩ := mem_matchResults_elim hr
  obtain ⟨ich, -, hpe⟩ := List.mem_map.mp hp
  refine ⟨hmin, ?_⟩
  subst hpr
  rw [← hpe]
  rfl

/-- Witness for the amended C1 theorem at the concrete KYC instance. -/
theorem c1_final_list_filters_only_on_score_witness :
    defaultConfig.minMatchingScore
        ≤ (calculateChannelMatch defaultConfig chKycOnly reqNoKyc (uuidDemo 0) 0).1.matchScore
    ∧ (calculateChannelMatch defaultConfig chKycOnly reqNoKyc (uuidDemo 0) 0).1.availability
        = checkChannelAvailability
            (calculateChannelMatch defaultConfig chKycOnly reqNoKyc (uuidDemo 0) 0).1.channel
            reqNoKyc :=
  c1_final_list_filters_only_on_score defaultConfig [chKycOnly] reqNoKyc uuidDemo 0
    (calculateChannelMatch defaultConfig chKycOnly reqNoKyc (uuidDemo 0) 0).1
    (by rw [matchResultsKyc]; exact List.mem_singleton.mpr rfl)

/-- C2: the list returned by MatchChannels contains only results at or
above the configured minimum score, is sorted by non-increasing match
score, has length at most the configured maximum, and is a permutation of
all passing candidates whenever no truncation is needed; on the concrete
scenario with three channels scored 0.75, 0.55, 0.90 under the default
configuration, the result is the 0.90 channel followed by the 0.75
channel. -/
theorem c2_filter_sort_truncate :
    (∀ (cfg : Config) (channels : List Channel) (request : MatchingRequest)
        (gen : ℕ → String) (now : ℤ),
        (∀ r ∈ matchResults cfg channels request gen now, cfg.minMatchingScore ≤ r.matchScore)
        ∧ List.Sorted matchGe (matchResults cfg channels request gen now)
        ∧ (matchResults cfg channels request gen now).length ≤ cfg.maxMatchingResults
        ∧ ((passingResults cfg channels request gen now).length ≤ cfg.maxMatchingResults →
            (matchResults cfg channels request gen now).Perm
              (passingResults cfg channels request gen now)))
    ∧ (scoredCandidates defaultConfig [chScenA, chScenB, chScenC] reqScen uuidDemo 0).map
        (fun p => p.1.matchScore) = [0.75, 0.55, 0.9]
    ∧ (matchResults defaultConfig [chScenA, chScenB, chScenC] reqScen uuidDemo 0).map
        (fun r => r.channelID) = ["C", "A"]
    ∧ (matchResults defaultConfig [chScenA, chScenB, chScenC] reqScen uuidDemo 0).map
        (fun r => r.matchScore) = [0.9, 0.75] := by
  refine ⟨fun cfg channels request gen now => ⟨?_, ?_, ?_, ?_⟩,
    mapScoredScen, mapChannelIDScen, mapScoreScen⟩
  · intro r hr
    exact (mem_matchResults_elim hr).1
  · exact List.Pairwise.sublist (List.take_sublist _ _)
      (List.sorted_insertionSort matchGe _)
  · rw [matchResults, List.length_take]
    exact min_le_left _ _
  · intro h
    rw [matchResults,
      List.take_of_length_le (by rw [List.length_insertionSort]; exact h)]
    exact List.perm_insertionSort matchGe _

/-- Witness for the C2 theorem at the concrete three-channel scenario. -/
theorem c2_filter_sort_truncate_witness :
    (passingResults defaultConfig [chScenA, chScenB, chScenC] reqScen uuidDemo 0).length
        ≤ defaultConfig.maxMatchingResults
    ∧ (matchResults defaultConfig [chScenA, chScenB, chScenC] reqScen uuidDemo 0).Perm
        (passingResults defaultConfig [chScenA, chScenB, chScenC] reqScen uuidDemo 0)
    ∧ defaultConfig.minMatchingScore
        ≤ (calculateChannelMatch defaultConfig chScenC reqScen (uuidDemo 2) 0).1.matchScore := by
  have hlen : (passingResults defaultConfig [chScenA, chScenB, chScenC] reqScen uuidDemo 0).length
      ≤ defaultConfig.maxMatchingResults := by
    rw [passingScen, defaultMaxResults]
    norm_num
  refine ⟨hlen, ?_, ?_⟩
  · exact (c2_filter_sort_truncate.1 defaultConfig [chScenA, chScenB, chScenC] reqScen
      uuidDemo 0).2.2.2 hlen
  · exact ((c2_filter_sort_truncate.1 defaultConfig [chScenA, chScenB, chScenC] reqScen
      uuidDemo 0).1 _ (by rw [matchResultsScen]; exact List.mem_cons_self _ _))

/-- C9 counterexample: with the default configuration, a single eligible
channel scoring 0.22 is dropped from the result list by the 0.6 minimum
score filter, yet one redirect cache entry is still written for it by
generateRedirectInfo inside calculateChannelMatch. -/
theorem c9_token_written_for_dropped_counterexample :
    matchResults defaultConfig [chLowScore] reqLow uuidDemo 0 = []
    ∧ (matchWrites defaultConfig [chLowScore] reqLow uuidDemo 0).map (fun w => w.redirectID)
        = ["uuid-0"]
    ∧ (matchWrites defaultConfig [chLowScore] reqLow uuidDemo 0).length = 1 :=
  ⟨matchResultsLow, writesLow, rfl⟩

/-- C9 amended: one redirect cache entry is written for every scored
candidate of a MatchChannels call, including candidates later dropped by
the filter or truncation, and every surviving result carries the redirect
descriptor of its own cache entry. -/
theorem c9_token_written_per_scored_candidate :
    ∀ (cfg : Config) (channels : List Channel) (request : MatchingRequest)
      (gen : ℕ → String) (now : ℤ),
      (matchWrites cfg channels request gen now).length = channels.length
      ∧ ∀ r ∈ matchResults cfg channels request gen now,
          ∃ w ∈ matchWrites cfg channels request gen now,
            r.redirectInfo = w.redirectInfo ∧ w.request = request := by
  intro cfg channels request gen now
  constructor
  · simp [matchWrites, scoredCandidates]
  · intro r hr
    obtain ⟨-, p, hp, hpr⟩ := mem_matchResults_elim hr
    obtain ⟨ich, -, hpe⟩ := List.mem_map.mp hp
    refine ⟨p.2, List.mem_map.mpr ⟨p, hp, rfl⟩, ?_, ?_⟩
    · subst hpr
      rw [← hpe]
      rfl
    · rw [← hpe]
      rfl

/-- Witness for the amended C9 theorem at a concrete single-channel call. -/
theorem c9_token_written_per_scored_candidate_witness :
    (matchWrites defaultConfig [chScenA] reqScen uuidDemo 0).length = [chScenA].length
    ∧ ∃ w ∈ matchWrites defaultConfig [chScenA] reqScen uuidDemo 0,
        (calculateChannelMatch defaultConfig chScenA reqScen (uuidDemo 0) 0).1.redirectInfo
            = w.redirectInfo
        ∧ w.request = reqScen :=
  ⟨(c9_token_written_per_scored_candidate defaultConfig [chScenA] reqScen uuidDemo 0).1,
   (c9_token_written_per_scored_candidate defaultConfig [chScenA] reqScen uuidDemo 0).2 _
     (by rw [matchResultsScenSingleA]; exact List.mem_singleton.mpr rfl)⟩

/-- C4: the fee sub-score of the source equals the reference definition of
the specification (1.0 at or below the floor amount times 0.0001, 0.0 at
or above the ceiling amount times 0.01, linear in between), it is strictly
decreasing in the total fee strictly between floor and ceiling, and the
concrete scenario amount 10000, taker rate 0.005, withdrawal fee 5 yields
1 minus 54/99. -/
theorem c4_fee_subscore_matches_spec :
    (∀ (channel : Channel) (amount : ℚ),
        calculateFeeScore channel amount
          = feeScoreSpecRef (feeTotalFee channel amount) (feeMinFee amount) (feeMaxFee amount))
    ∧ (∀ (c1 c2 : Channel) (amount : ℚ),
        feeMinFee amount < feeTotalFee c1 amount →
        feeTotalFee c1 amount < feeTotalFee c2 amount →
        feeTotalFee c2 amount < feeMaxFee amount →
        calculateFeeScore c2 amount < calculateFeeScore c1 amount)
    ∧ calculateFeeScore chFee 10000 = 1 - 54/99 := by
  refine ⟨fun channel amount => rfl, ?_, ?_⟩
  · intro c1 c2 amount h1 h2 h3
    unfold calculateFeeScore
    split_ifs <;> try linarith
    have hden : 0 < feeMaxFee amount - feeMinFee amount := by linarith
    have hnum : feeTotalFee c1 amount - feeMinFee amount
        < feeTotalFee c2 amount - feeMinFee amount := by linarith
    have hfrac := mul_lt_mul_of_pos_right hnum (inv_pos.mpr hden)
    rw [← div_eq_mul_inv, ← div_eq_mul_inv] at hfrac
    linarith
  · norm_num [calculateFeeScore, feeTotalFee, feeMinFee, feeMaxFee, chFee, baseChannel]

/-- Witness for the C4 theorem: the equality instantiated at a concrete
channel, and the strict decrease instantiated at two concrete channels
whose total fees lie strictly between floor and ceiling. -/
theorem c4_fee_subscore_matches_spec_witness :
    calculateFeeScore chScenA 10000
        = feeScoreSpecRef (feeTotalFee chScenA 10000) (feeMinFee 10000) (feeMaxFee 10000)
    ∧ calculateFeeScore chScenA 10000 < calculateFeeScore chScenC 10000 :=
  ⟨c4_fee_subscore_matches_spec.1 chScenA 10000,
   c4_fee_subscore_matches_spec.2.1 chScenC chScenA 10000
     (by norm_num [feeTotalFee, feeMinFee, chScenC, chScenA, baseChannel])
     (by norm_num [feeTotalFee, chScenC, chScenA, baseChannel])
     (by norm_num [feeTotalFee, feeMaxFee, chScenA, baseChannel])⟩

/-- C5: the five scoring weights accumulated by calculateChannelMatch sum
to exactly 1, the unclamped user experience sub-score stays within the
unit interval, and the normalized match score of every scored candidate
lies in the unit interval. -/
theorem c5_weights_sum_one_and_score_in_unit_interval :
    matchMaxScore = 1
    ∧ (∀ (channel : Channel) (request : MatchingRequest),
        0 ≤ calculateUXScore channel request ∧ calculateUXScore channel request ≤ 1)
    ∧ ∀ (cfg : Config) (channel : Channel) (request : MatchingRequest) (rid : String)
        (now : ℤ),
        0 ≤ (calculateChannelMatch cfg channel request rid now).1.matchScore
        ∧ (calculateChannelMatch cfg channel request rid now).1.matchScore ≤ 1 :=
  ⟨by norm_num [matchMaxScore],
   fun channel request => ⟨uxScore_nonneg channel request, uxScore_le_one channel request⟩,
   fun cfg channel request rid now =>
     ⟨matchScore_nonneg cfg channel request rid now, matchScore_le_one cfg channel request rid now⟩⟩

/-- C6: the availability sub-score equals 1 minus 0.3 for a KYC
requirement unmet by the request, minus 0.1 for a positive minimum net
worth, minus 0.4 for an unsupported payment method, floored at 0; and the
independently computed availability object reports available false with
the matching reason whenever the KYC gate or the payment gate fails. -/
theorem c6_availability_penalties_and_reasons :
    (∀ (channel : Channel) (request : MatchingRequest),
        calculateAvailabilityScore channel request
          = max 0 (1 - (if channel.compliance.kycRequired && (request.kycLevel == "")
                then (0.3:ℚ) else 0)
              - (if channel.compliance.minimumNetWorth > 0 then (0.1:ℚ) else 0)
              - (if paymentSupported channel request then 0 else (0.4:ℚ))))
    ∧ (∀ (channel : Channel) (request : MatchingRequest),
        channel.compliance.kycRequired = true → request.kycLevel = "" →
          (checkChannelAvailability channel request).available = false
          ∧ "KYC verification required" ∈ (checkChannelAvailability channel request).reasons)
    ∧ ∀ (channel : Channel) (request : MatchingRequest),
        paymentSupported channel request = false →
          (checkChannelAvailability channel request).available = false
          ∧ "Payment method not supported" ∈ (checkChannelAvailability channel request).reasons := by
  refine ⟨?_, ?_, ?_⟩
  · intro channel request
    unfold calculateAvailabilityScore
    dsimp only
    split_ifs <;> norm_num
  · intro channel request h1 h2
    unfold checkChannelAvailability
    dsimp only
    rw [h1, h2]
    split_ifs <;> simp_all
  · intro channel request h
    unfold checkChannelAvailability
    dsimp only
    rw [h]
    split_ifs <;> simp_all

/-- Witness for the C6 theorem at concrete channels failing the KYC gate
and the payment gate respectively. -/
theorem c6_availability_penalties_and_reasons_witness :
    calculateAvailabilityScore chKycOnly reqNoKyc
        = max 0 (1 - (if chKycOnly.compliance.kycRequired && (reqNoKyc.kycLevel == "")
              then (0.3:ℚ) else 0)
            - (if chKycOnly.compliance.minimumNetWorth > 0 then (0.1:ℚ) else 0)
            - (if paymentSupported chKycOnly reqNoKyc then 0 else (0.4:ℚ)))
    ∧ ((checkChannelAvailability chKycOnly reqNoKyc).available = false
        ∧ "KYC verification required" ∈ (checkChannelAvailability chKycOnly reqNoKyc).reasons)
    ∧ ((checkChannelAvailability chLowScore reqLow).available = false
        ∧ "Payment method not supported" ∈ (checkChannelAvailability chLowScore reqLow).reasons) :=
  ⟨c6_availability_penalties_and_reasons.1 chKycOnly reqNoKyc,
   c6_availability_penalties_and_reasons.2.1 chKycOnly reqNoKyc rfl rfl,
   c6_availability_penalties_and_reasons.2.2 chLowScore reqLow rfl⟩

theorem take_append_take {α : Type} (n : ℕ) (a b : List α) :
    (a ++ b.take n).take n = (a ++ b).take n := by
  rw [List.take_append_eq_append_take, List.take_append_eq_append_take, List.take_take]
  congr 1
  rw [Nat.min_eq_left (Nat.sub_le n a.length)]

theorem foldl_updateUserAttributionPath (events : List AttributionEvent) :
    ∀ init : List String, init.length ≤ 10 →
      List.foldl updateUserAttributionPath init events
        = ((events.reverse.map touchpoint) ++ init).take 10 := by
  induction events with
  | nil =>
    intro init h
    simp [List.take_of_length_le h]
  | cons e rest ih =>
    intro init h
    rw [List.foldl_cons,
      show updateUserAttributionPath init e = (touchpoint e :: init).take 10 from rfl,
      ih _ (by rw [List.length_take]; exact min_le_left _ _),
      List.reverse_cons, List.map_append, List.map_singleton, List.append_assoc,
      List.singleton_append]
    exact take_append_take 10 _ _

/-- C7: one attribution path update always leaves at most ten entries, and
folding fifteen touchpoint events into an empty path leaves exactly the
ten most recent touchpoints, most recent first. -/
theorem c7_attribution_path_cap :
    (∀ (path : List String) (event : AttributionEvent),
        (updateUserAttributionPath path event).length ≤ 10)
    ∧ ∀ (events : List AttributionEvent), events.length = 15 →
        List.foldl updateUserAttributionPath [] events
            = (events.reverse.map touchpoint).take 10
        ∧ (List.foldl updateUserAttributionPath [] events).length = 10 := by
  constructor
  · intro path event
    rw [show updateUserAttributionPath path event = (touchpoint event :: path).take 10 from rfl,
      List.length_take]
    exact min_le_left _ _
  · intro events hlen
    have h := foldl_updateUserAttributionPath events [] (by simp)
    rw [List.append_nil] at h
    refine ⟨h, ?_⟩
    rw [h, List.length_take, List.length_map, List.length_reverse, hlen]
    norm_num

/-- Witness for the C7 theorem on fifteen concrete touchpoint events. -/
theorem c7_attribution_path_cap_witness :
    (updateUserAttributionPath [] (demoEvent 0)).length ≤ 10
    ∧ demoEvents.length = 15
    ∧ List.foldl updateUserAttributionPath [] demoEvents
        = (demoEvents.reverse.map touchpoint).take 10
    ∧ (List.foldl updateUserAttributionPath [] demoEvents).length = 10 :=
  ⟨c7_attribution_path_cap.1 [] (demoEvent 0), rfl,
   (c7_attribution_path_cap.2 demoEvents rfl).1,
   (c7_attribution_path_cap.2 demoEvents rfl).2⟩

/-- C8 counterexample: at two clicks, one conversion and revenue ten, the
source computes a conversion rate of 50 (conversions divided by clicks
times 100, a percentage), not the plain ratio one half claimed. -/
theorem c8_conversion_rate_percent_counterexample :
    (calculateChannelStats "ch" 2 1 10 "2026-01-01").conversionRate = 50
    ∧ (calculateChannelStats "ch" 2 1 10 "2026-01-01").conversionRate ≠ 1/2 := by
  constructor <;> norm_num [calculateChannelStats]

/-- C8 amended: the conversion rate equals conversions divided by clicks
times 100 (0 when clicks is not positive) and the average order value
equals revenue divided by conversions (0 when conversions is not
positive). -/
theorem c8_channel_stats_derived_fields :
    ∀ (cid : String) (clicks conversions : ℤ) (revenue : ℚ) (period : String),
      (0 < clicks → (calculateChannelStats cid clicks conversions revenue period).conversionRate
          = ((conversions : ℚ) / (clicks : ℚ)) * 100)
      ∧ (clicks ≤ 0 → (calculateChannelStats cid clicks conversions revenue period).conversionRate
          = 0)
      ∧ (0 < conversions →
          (calculateChannelStats cid clicks conversions revenue period).averageOrderValue
            = revenue / (conversions : ℚ))
      ∧ (conversions ≤ 0 →
          (calculateChannelStats cid clicks conversions revenue period).averageOrderValue
            = 0) := by
  intro cid clicks conversions revenue period
  unfold calculateChannelStats
  dsimp only
  refine ⟨fun h => ?_, fun h => ?_, fun h => ?_, fun h => ?_⟩
  · rw [if_pos h]
  · rw [if_neg (by omega)]
  · rw [if_pos h]
  · rw [if_neg (by omega)]

/-- Witness for the amended C8 theorem at concrete counter values. -/
theorem c8_channel_stats_derived_fields_witness :
    ((calculateChannelStats "c" 4 2 10 "d").conversionRate = ((2:ℚ) / (4:ℚ)) * 100
      ∧ (calculateChannelStats "c" 4 2 10 "d").averageOrderValue = 10 / (2:ℚ))
    ∧ (calculateChannelStats "c" 0 5 10 "d").conversionRate = 0
    ∧ (calculateChannelStats "c" 7 0 10 "d").averageOrderValue = 0 :=
  ⟨⟨(c8_channel_stats_derived_fields "c" 4 2 10 "d").1 (by norm_num),
    (c8_channel_stats_derived_fields "c" 4 2 10 "d").2.2.1 (by norm_num)⟩,
   (c8_channel_stats_derived_fields "c" 0 5 10 "d").2.1 le_rfl,
   (c8_channel_stats_derived_fields "c" 7 0 10 "d").2.2.2 le_rfl⟩

/-- C10: for every channel and non-negative amount the fee sub-score is
total and safe: the linear interpolation branch is reached only when the
ceiling strictly exceeds the floor, at amount 0 both bounds are 0 and a
guard branch returns 1 or 0 before any division, and the result always
lies in the unit interval. -/
theorem c10_fee_score_total_and_division_safe :
    ∀ (channel : Channel) (amount : ℚ), 0 ≤ amount →
      ((feeMinFee amount < feeTotalFee channel amount
          ∧ feeTotalFee channel amount < feeMaxFee amount) →
          0 < feeMaxFee amount - feeMinFee amount)
      ∧ (amount = 0 → feeMinFee amount = 0 ∧ feeMaxFee amount = 0
          ∧ (calculateFeeScore channel amount = 1 ∨ calculateFeeScore channel amount = 0))
      ∧ 0 ≤ calculateFeeScore channel amount ∧ calculateFeeScore channel amount ≤ 1 := by
  intro channel amount h0
  refine ⟨fun h => by linarith [h.1, h.2], fun hz => ?_,
    feeScore_nonneg channel amount, feeScore_le_one channel amount⟩
  subst hz
  refine ⟨by norm_num [feeMinFee], by norm_num [feeMaxFee], ?_⟩
  unfold calculateFeeScore
  split_ifs with h1 h2
  · left; norm_num
  · right; norm_num
  · exfalso
    push_neg at h1 h2
    rw [feeMinFee, feeMaxFee] at *
    norm_num at h1 h2
    linarith

/-- Witness for the C10 theorem: the interpolation branch is reached with
a positive denominator at the concrete fee channel and amount 10000, the
amount 0 guard behaviour, and the unit interval bound at amount 10000. -/
theorem c10_fee_score_total_and_division_safe_witness :
    0 < feeMaxFee 10000 - feeMinFee 10000
    ∧ (feeMinFee 0 = 0 ∧ feeMaxFee 0 = 0
        ∧ (calculateFeeScore chFee 0 = 1 ∨ calculateFeeScore chFee 0 = 0))
    ∧ 0 ≤ calculateFeeScore chFee 10000 ∧ calculateFeeScore chFee 10000 ≤ 1 :=
  ⟨(c10_fee_score_total_and_division_safe chFee 10000 (by norm_num)).1
     (by constructor <;> norm_num [feeMinFee, feeMaxFee, feeTotalFee, chFee, baseChannel]),
   (c10_fee_score_total_and_division_safe chFee 0 le_rfl).2.1 rfl,
   (c10_fee_score_total_and_division_safe chFee 10000 (by norm_num)).2.2⟩
